import Mathlib

/-!
Shallow embedding of the homebridge-daikin-air-purifier core
(src/client.ts, src/response.ts and the accessory file that defines
class DaikinAirPurifier) into Lean 4.

Modelling conventions:
* JavaScript numbers produced by parseFloat are modelled by `JSNum`
  (NaN, signed Infinity, or an exact rational); the cached sensor
  values live in this type.
* A thrown JS `Error` is modelled by the `DevErr` type and fallible
  operations return `Except DevErr α`.
* The HTTP transport is abstracted by a `Device` record that gives, for
  each of the three endpoints used, either the raw response body string
  or a transport failure; `callDevice` then performs the parsing and
  `ret=OK` check of DeviceClient.callDevice on that outcome.
* Un-awaited promises (`this.updateState()` invoked as a bare
  statement) are modelled explicitly: a handler's outcome records the
  value its own promise settles with, the cache contents at that
  moment, and the list of floating tasks it started whose eventual
  results nobody awaits and to which no rejection handler is attached.
-/

/-- A JavaScript number as produced by `parseFloat`: NaN, ±Infinity or a
finite value (modelled as an exact rational). -/
inductive JSNum where
  | nan : JSNum
  | inf (neg : Bool) : JSNum
  | num (q : Rat) : JSNum
deriving DecidableEq, Repr

/-- Model of `GetControlInfoResponse` from src/response.ts. -/
structure GetControlInfoResponse where
  power : Bool
  humidifier : Bool
deriving DecidableEq, Repr

/-- Model of `GetSensorInfoResponse` from src/response.ts. -/
structure GetSensorInfoResponse where
  temperature : JSNum
  humidity : JSNum
deriving DecidableEq, Repr

/-- The kinds of `Error` thrown by DeviceClient: an axios/transport
failure, `device API failed` (ret field not "OK"), and the two
`Unknown value for ...` decode errors, tagged with the field name and
the offending value (`none` models a JS `undefined` field). -/
inductive DevErr where
  | transport : DevErr
  | protocol : DevErr
  | decode (field : String) (value : Option String) : DevErr
deriving DecidableEq, Repr

instance {ε α : Type} [DecidableEq ε] [DecidableEq α] : DecidableEq (Except ε α) := fun x y =>
  match x, y with
  | .ok a, .ok b =>
    match decEq a b with
    | isTrue h => isTrue (congrArg Except.ok h)
    | isFalse h => isFalse (fun he => h (Except.ok.inj he))
  | .error a, .error b =>
    match decEq a b with
    | isTrue h => isTrue (congrArg Except.error h)
    | isFalse h => isFalse (fun he => h (Except.error.inj he))
  | .ok _, .error _ => isFalse (fun he => Except.noConfusion he)
  | .error _, .ok _ => isFalse (fun he => Except.noConfusion he)

/-- The device as seen through HTTP: for each endpoint, either the raw
response body or a transport failure.  `setBody` receives the encoded
`pow` query parameter sent by `setControlInfo`. -/
structure Device where
  sensorBody : Except DevErr String
  controlBody : Except DevErr String
  setBody : String → Except DevErr String

/-- JavaScript `String.prototype.split` with a one-character separator,
written by structural recursion on the character list: `""` splits to
`[""]`, and every occurrence of the separator starts a new piece. -/
def splitOnCh (sep : Char) : List Char → List (List Char)
  | [] => [[]]
  | c :: rest =>
    match splitOnCh sep rest with
    | [] => if c = sep then [[], [c]] else [[c]]
    | h :: t => if c = sep then [] :: h :: t else (c :: h) :: t

/-- Wire-format parsing from `DeviceClient.callDevice`:
`resp.data.split(",")`, then for each item `item.split("=", 2)` which in
JavaScript keeps only the first two elements of the full split — the
key is element 0 and the value element 1 (the text between the first
and the second `=`), `undefined` (here `none`) when the item has no
`=`. -/
def parseBody (b : String) : List (String × Option String) :=
  (splitOnCh ',' b.data).map (fun item =>
    let parts := (splitOnCh '=' item).map String.mk
    (parts.headI, parts[1]?))

/-- Reading `ret[k]` from the object built by the `ret[k] = v` loop: the
last assignment to a key wins; a key never assigned, or assigned the
JS `undefined`, reads as `undefined` (`none`). -/
def getField (m : List (String × Option String)) (k : String) : Option String :=
  match (m.filter (fun p => p.1 == k)).getLast? with
  | some p => p.2
  | none => none

/-- Model of `DeviceClient.callDevice` applied to the transport outcome of one
endpoint: propagate a transport failure, otherwise parse the body and
fail with `device API failed` unless the parsed `ret` field is the
literal string "OK". -/
def callDevice (body : Except DevErr String) : Except DevErr (List (String × Option String)) :=
  match body with
  | .error e => .error e
  | .ok b =>
    let m := parseBody b
    if getField m "ret" = some "OK" then .ok m else .error .protocol

/-- The `switch (resp.pow)` of `DeviceClient.getControlInfo`: "0" gives
false, "1" gives true, anything else (a missing field included) throws
`Unknown value for pow`. -/
def decodePow (v : Option String) : Except DevErr Bool :=
  if v = some "0" then .ok false
  else if v = some "1" then .ok true
  else .error (.decode "pow" v)

/-- The `switch (resp.humd)` of `DeviceClient.getControlInfo`: "0"
gives false, "1" "2" "3" "4" give true, anything else (a missing field
included) throws `Unknown value for humd`. -/
def decodeHumd (v : Option String) : Except DevErr Bool :=
  if v = some "0" then .ok false
  else if v = some "1" ∨ v = some "2" ∨ v = some "3" ∨ v = some "4" then .ok true
  else .error (.decode "humd" v)

/-- Model of `DeviceClient.getControlInfo`: call the control endpoint, decode
`pow` then `humd`. -/
def getControlInfo (dev : Device) : Except DevErr GetControlInfoResponse := do
  let resp ← callDevice dev.controlBody
  let power ← decodePow (getField resp "pow")
  let humidifier ← decodeHumd (getField resp "humd")
  pure { power := power, humidifier := humidifier }

/-- Digits of a decimal literal to a natural number. -/
def natOfDigits (cs : List Char) : Nat :=
  cs.foldl (fun a c => a * 10 + (c.toNat - 48)) 0

/-- Value of an integer part `ip` and a fraction part `fp` of a decimal
literal. -/
def mantissaVal (ip fp : List Char) : Rat :=
  (natOfDigits ip : Rat) + (natOfDigits fp : Rat) / ((10 : Rat) ^ fp.length)

/-- Parse the longest `digits [. digits]` prefix; `none` when not a
single digit is present (parseFloat then yields NaN). -/
def parseMantissa (cs : List Char) : Option (Rat × List Char) :=
  let sp := cs.span Char.isDigit
  match sp.2 with
  | '.' :: r2 =>
    let sf := r2.span Char.isDigit
    if sp.1.isEmpty ∧ sf.1.isEmpty then none
    else some (mantissaVal sp.1 sf.1, sf.2)
  | _ => if sp.1.isEmpty then none else some (mantissaVal sp.1 [], sp.2)

/-- Parse an optional exponent part `e|E [+|-] digits` directly after
the mantissa; an `e` not followed by a digit is not part of the number
and contributes exponent 0, exactly as in JS parseFloat. -/
def parseExpPart (cs : List Char) : Int :=
  match cs with
  | c :: rest =>
    if c = 'e' ∨ c = 'E' then
      match rest with
      | '+' :: r2 => if (r2.span Char.isDigit).1.isEmpty then 0 else (natOfDigits (r2.span Char.isDigit).1 : Int)
      | '-' :: r2 => if (r2.span Char.isDigit).1.isEmpty then 0 else -(natOfDigits (r2.span Char.isDigit).1 : Int)
      | r2 => if (r2.span Char.isDigit).1.isEmpty then 0 else (natOfDigits (r2.span Char.isDigit).1 : Int)
    else 0
  | [] => 0

/-- Power `10 ^ e` over the rationals for an integer exponent. -/
def ratPow10 (e : Int) : Rat :=
  if 0 ≤ e then (10 : Rat) ^ e.toNat else ((10 : Rat) ^ (-e).toNat)⁻¹

/-- JavaScript `parseFloat` on a string: skip leading whitespace, read
an optional sign, then either an `Infinity` prefix or the longest
decimal-literal prefix; NaN when no digits (and no Infinity) are
found.  Finite results are kept exact in `Rat` rather than rounded to
binary64. -/
def jsParseFloat (s : String) : JSNum :=
  let cs := s.data.dropWhile Char.isWhitespace
  let signed : Bool × List Char :=
    match cs with
    | '-' :: r => (true, r)
    | '+' :: r => (false, r)
    | r => (false, r)
  if "Infinity".data.isPrefixOf signed.2 then JSNum.inf signed.1
  else
    match parseMantissa signed.2 with
    | none => JSNum.nan
    | some (m, rest) =>
      let v := m * ratPow10 (parseExpPart rest)
      JSNum.num (if signed.1 then -v else v)

/-- Evaluation of `parseFloat(resp.field)` where the field may be the JS `undefined`:
`parseFloat(undefined)` coerces the argument to the string
"undefined", which parses to NaN. -/
def jsParseFloatOpt (v : Option String) : JSNum :=
  match v with
  | none => JSNum.nan
  | some s => jsParseFloat s

/-- Model of `DeviceClient.getSensorInfo`: call the sensor endpoint and
numerically parse `htemp` and `hhum`; no decode failure is possible
past a successful `callDevice`. -/
def getSensorInfo (dev : Device) : Except DevErr GetSensorInfoResponse := do
  let resp ← callDevice dev.sensorBody
  pure { temperature := jsParseFloatOpt (getField resp "htemp"),
         humidity := jsParseFloatOpt (getField resp "hhum") }

/-- Model of `DeviceClient.setControlInfo`: call the set endpoint with `pow`
encoded "1" for power on and "0" for power off; the parsed response is
discarded. -/
def setControlInfo (dev : Device) (power : Bool) : Except DevErr Unit :=
  match callDevice (dev.setBody (if power then "1" else "0")) with
  | .ok _ => .ok ()
  | .error e => .error e

/-- The cached `State` of class DaikinAirPurifier: a timestamp in
milliseconds plus the last decoded control and sensor responses. -/
structure State where
  updated_at : Nat
  controlInfo : GetControlInfoResponse
  sensorInfo : GetSensorInfoResponse
deriving DecidableEq, Repr

/-- Modelled from the HAP specification (the hap-nodejs dependency, not
part of src/): `Characteristic.Active.INACTIVE`. -/
def HapActiveINACTIVE : Nat := 0

/-- Modelled from the HAP specification (the hap-nodejs dependency, not
part of src/): `Characteristic.Active.ACTIVE`. -/
def HapActiveACTIVE : Nat := 1

/-- Modelled from the HAP specification:
`Characteristic.CurrentAirPurifierState.INACTIVE`. -/
def HapPurifierINACTIVE : Nat := 0

/-- Modelled from the HAP specification:
`Characteristic.CurrentAirPurifierState.PURIFYING_AIR`. -/
def HapPurifierPURIFYING : Nat := 2

/-- Modelled from the HAP specification:
`Characteristic.CurrentHumidifierDehumidifierState.INACTIVE`. -/
def HapHumidifierINACTIVE : Nat := 0

/-- Modelled from the HAP specification:
`Characteristic.CurrentHumidifierDehumidifierState.HUMIDIFYING`. -/
def HapHumidifierHUMIDIFYING : Nat := 2

/-- Model of `DaikinAirPurifier.getActive`: project the cached power flag to the
HAP Active value. -/
def getActive (st : State) : Nat :=
  if st.controlInfo.power then HapActiveACTIVE else HapActiveINACTIVE

/-- Model of `DaikinAirPurifier.getCurrentAirPurifierState`. -/
def getCurrentAirPurifierState (st : State) : Nat :=
  if st.controlInfo.power then HapPurifierPURIFYING else HapPurifierINACTIVE

/-- Model of `DaikinAirPurifier.getCurrentTemperature`: the cached temperature,
as is. -/
def getCurrentTemperature (st : State) : JSNum :=
  st.sensorInfo.temperature

/-- Model of `DaikinAirPurifier.getCurrentHumidity`: the cached humidity, as
is. -/
def getCurrentHumidity (st : State) : JSNum :=
  st.sensorInfo.humidity

/-- Model of `DaikinAirPurifier.getCurrentHumidifierState`. -/
def getCurrentHumidifierState (st : State) : Nat :=
  if st.controlInfo.humidifier then HapHumidifierHUMIDIFYING else HapHumidifierINACTIVE

/-- The initializer of the `state` field of DaikinAirPurifier:
`updated_at: 0`, power and humidifier off, temperature and humidity
the number 0. -/
def initState : State :=
  { updated_at := 0,
    controlInfo := { power := false, humidifier := false },
    sensorInfo := { temperature := JSNum.num 0, humidity := JSNum.num 0 } }

/-- The freshness window of the tick guard
`Date.now() < this.state.updated_at + 5000`. -/
def freshnessWindowMs : Nat := 5000

/-- The period passed to `setInterval` in the constructor. -/
def tickIntervalMs : Nat := 10000

/-- Model of `DaikinAirPurifier.updateState` up to its single cache write: fetch
control info, then sensor info, and on success build the replacement
state stamped with the current time.  The two awaits are the only
suspension points; the `this.state = {...}` assignment is one
synchronous step. -/
def updateState (dev : Device) (now : Nat) : Except DevErr State := do
  let ctrlInfo ← getControlInfo dev
  let sensorInfo ← getSensorInfo dev
  pure { updated_at := now, controlInfo := ctrlInfo, sensorInfo := sensorInfo }

/-- Running `updateState` against a current cache `st`: the cache after
the returned promise settles, paired with the rejection (if any).  A
rejected run leaves the cache untouched. -/
def updateStateRun (dev : Device) (st : State) (now : Nat) : State × Option DevErr :=
  match updateState dev now with
  | .ok s => (s, none)
  | .error e => (st, some e)

/-- The cache contents a reader can observe while one `updateState`
run is in progress and after it settles: the old state during the
control fetch, the old state during the sensor fetch, and the settled
state (new on success, still the old one on failure). -/
def updateStateObservable (dev : Device) (st : State) (now : Nat) : List State :=
  [st, st, (updateStateRun dev st now).1]

/-- What a characteristic-write handler leaves behind: the value its
own promise settles with, the cache at that moment, and the floating
`updateState` promises it started but neither awaits nor attaches any
rejection handler to. -/
structure OnSetOutcome where
  resolveResult : Except DevErr Unit
  stateAtResolve : State
  floating : List (Except DevErr State)
deriving DecidableEq

/-- The `onSet` handler of the Active characteristic (identical on the
air-purifier and humidifier services): await
`setControlInfo({ power: value === Active.ACTIVE })`, rejecting with
its error if it fails, then invoke `this.updateState()` as a bare
statement — the handler resolves without awaiting it, so the cache
still holds its pre-call contents at resolution and the refresh's
promise floats.  `refreshNow` is the clock value the floating refresh
stamps if it succeeds. -/
def onSetActive (dev : Device) (st : State) (refreshNow : Nat) (value : Nat) : OnSetOutcome :=
  match setControlInfo dev (decide (value = HapActiveACTIVE)) with
  | .error e => { resolveResult := .error e, stateAtResolve := st, floating := [] }
  | .ok _ => { resolveResult := .ok (), stateAtResolve := st,
               floating := [updateState dev refreshNow] }

/-- One tick of the `setInterval` callback: when the cache is fresh
(`Date.now() < updated_at + 5000`) it only logs "use cached" and
returns, starting nothing; otherwise it invokes `this.updateState()`
as a bare statement, leaving one floating promise with no rejection
handler. -/
def tickRun (dev : Device) (st : State) (now : Nat) : List (Except DevErr State) :=
  if now < st.updated_at + freshnessWindowMs then []
  else [updateState dev now]

/-- Whether a tick refreshes: the negation of the guard
`Date.now() < this.state.updated_at + 5000`. -/
def tickRefreshes (now : Nat) (st : State) : Bool :=
  !(now < st.updated_at + freshnessWindowMs)

/-- The rejections of floating promises nobody handles: every error
among tasks started as bare statements is an unhandled promise
rejection, because the source attaches no `catch`, no `await` and no
try/catch around them. -/
def unhandledErrors (fl : List (Except DevErr State)) : List DevErr :=
  fl.filterMap (fun t => match t with | .error e => some e | .ok _ => none)

/-- A device answering the control endpoint with an unknown `pow`
code. -/
def devBadPow : Device :=
  { sensorBody := .ok "ret=OK", controlBody := .ok "ret=OK,pow=abc,humd=0",
    setBody := fun _ => .ok "ret=OK" }

/-- A device answering the control endpoint with a valid `pow` but an
unknown `humd` code. -/
def devBadHumd : Device :=
  { sensorBody := .ok "ret=OK", controlBody := .ok "ret=OK,pow=1,humd=9",
    setBody := fun _ => .ok "ret=OK" }

/-- C3: decoding of the `pow` field: conditional on a successful
`callDevice`, `getControlInfo` is exactly the decode of `pow` then
`humd`; the `pow` decode yields `false` exactly on "0" and `true`
exactly on "1", and on any other value (a missing field included) the
whole operation fails with the `pow` decode error, returning no
response. -/
theorem daikin_C3 (dev : Device) (resp : List (String × Option String))
    (hcall : callDevice dev.controlBody = .ok resp) :
    (getControlInfo dev =
      (decodePow (getField resp "pow")).bind (fun p =>
        (decodeHumd (getField resp "humd")).bind (fun h =>
          Except.ok { power := p, humidifier := h })))
    ∧ (decodePow (getField resp "pow") = .ok false ↔ getField resp "pow" = some "0")
    ∧ (decodePow (getField resp "pow") = .ok true ↔ getField resp "pow" = some "1")
    ∧ (getField resp "pow" = some "0" ∨ getField resp "pow" = some "1"
        ∨ getControlInfo dev = .error (.decode "pow" (getField resp "pow"))) := by
  have hg : getControlInfo dev =
      (decodePow (getField resp "pow")).bind (fun p =>
        (decodeHumd (getField resp "humd")).bind (fun h =>
          Except.ok { power := p, humidifier := h })) := by
    unfold getControlInfo
    rw [hcall]
    rfl
  have hpow : ∀ v : Option String,
      (decodePow v = .ok false ↔ v = some "0")
      ∧ (decodePow v = .ok true ↔ v = some "1")
      ∧ (v = some "0" ∨ v = some "1" ∨ decodePow v = .error (.decode "pow" v)) := by
    intro v
    unfold decodePow
    split_ifs with h1 h2 <;> simp_all
  refine ⟨hg, (hpow _).1, (hpow _).2.1, ?_⟩
  rcases (hpow (getField resp "pow")).2.2 with h | h | h
  · tauto
  · tauto
  · refine Or.inr (Or.inr ?_)
    rw [hg, h]
    rfl

/-- C3 witness: a device reporting `pow=abc` makes `getControlInfo`
fail with the `pow` decode error. -/
theorem daikin_C3_witness :
    getControlInfo devBadPow = .error (.decode "pow" (some "abc")) := by
  have h := daikin_C3 devBadPow (parseBody "ret=OK,pow=abc,humd=0") (by decide)
  rcases h.2.2.2 with h0 | h0 | h0
  · exact absurd h0 (by decide)
  · exact absurd h0 (by decide)
  · have hv : getField (parseBody "ret=OK,pow=abc,humd=0") "pow" = some "abc" := by decide
    rw [hv] at h0
    exact h0

/-- C4: decoding of the `humd` field: conditional on a successful
`callDevice` and a decodable `pow`, the `humd` decode yields `false`
exactly on "0" and `true` exactly on "1", "2", "3" or "4"; on any
other value (a missing field included) the whole operation fails with
the `humd` decode error, returning no response. -/
theorem daikin_C4 (dev : Device) (resp : List (String × Option String)) (p : Bool)
    (hcall : callDevice dev.controlBody = .ok resp)
    (hpow : decodePow (getField resp "pow") = .ok p) :
    (getControlInfo dev =
      (decodeHumd (getField resp "humd")).bind (fun h =>
        Except.ok { power := p, humidifier := h }))
    ∧ (decodeHumd (getField resp "humd") = .ok false ↔ getField resp "humd" = some "0")
    ∧ (decodeHumd (getField resp "humd") = .ok true ↔
        (getField resp "humd" = some "1" ∨ getField resp "humd" = some "2"
          ∨ getField resp "humd" = some "3" ∨ getField resp "humd" = some "4"))
    ∧ (getField resp "humd" = some "0" ∨ getField resp "humd" = some "1"
        ∨ getField resp "humd" = some "2" ∨ getField resp "humd" = some "3"
        ∨ getField resp "humd" = some "4"
        ∨ getControlInfo dev = .error (.decode "humd" (getField resp "humd"))) := by
  have hg : getControlInfo dev =
      (decodeHumd (getField resp "humd")).bind (fun h =>
        Except.ok { power := p, humidifier := h }) := by
    unfold getControlInfo
    rw [hcall]
    show (decodePow (getField resp "pow")).bind _ = _
    rw [hpow]
    rfl
  have hhumd : ∀ v : Option String,
      (decodeHumd v = .ok false ↔ v = some "0")
      ∧ (decodeHumd v = .ok true ↔ (v = some "1" ∨ v = some "2" ∨ v = some "3" ∨ v = some "4"))
      ∧ (v = some "0" ∨ v = some "1" ∨ v = some "2" ∨ v = some "3" ∨ v = some "4"
          ∨ decodeHumd v = .error (.decode "humd" v)) := by
    intro v
    unfold decodeHumd
    split_ifs with h1 h2 <;> simp_all
  refine ⟨hg, (hhumd _).1, (hhumd _).2.1, ?_⟩
  rcases (hhumd (getField resp "humd")).2.2 with h | h | h | h | h | h
  any_goals tauto
  refine Or.inr (Or.inr (Or.inr (Or.inr (Or.inr ?_))))
  rw [hg, h]
  rfl

/-- C4 witness: a device reporting `pow=1,humd=9` makes
`getControlInfo` fail with the `humd` decode error. -/
theorem daikin_C4_witness :
    getControlInfo devBadHumd = .error (.decode "humd" (some "9")) := by
  have h := daikin_C4 devBadHumd (parseBody "ret=OK,pow=1,humd=9") true (by decide) (by decide)
  rcases h.2.2.2 with h0 | h0 | h0 | h0 | h0 | h0
  · exact absurd h0 (by decide)
  · exact absurd h0 (by decide)
  · exact absurd h0 (by decide)
  · exact absurd h0 (by decide)
  · exact absurd h0 (by decide)
  · have hv : getField (parseBody "ret=OK,pow=1,humd=9") "humd" = some "9" := by decide
    rw [hv] at h0
    exact h0

/-- A device whose sensor endpoint reports a non-numeric `htemp` and no
`hhum` at all. -/
def devNoNum : Device :=
  { sensorBody := .ok "ret=OK,htemp=abc", controlBody := .ok "ret=OK,pow=0,humd=0",
    setBody := fun _ => .ok "ret=OK" }

/-- C5 counterexample: on the body "ret=OK,x=a=b" the parsed value of
`x` is "a" — `split("=", 2)` drops everything after the second `=` — not
the whole remainder "a=b" the claim promises. -/
theorem daikin_C5_cex :
    getField (parseBody "ret=OK,x=a=b") "x" = some "a"
    ∧ decide (getField (parseBody "ret=OK,x=a=b") "x" = some "a=b") = false := by
  decide

/-- C5 amended: `callDevice` splits the body on "," and each item on
"=", the key being the part before the first "=" and the value the
part between the first and the second "=" (anything after a second "="
is dropped, not kept whole); the last occurrence of a duplicate key
wins; "ret=OK,pow=1,mode=1,airvol=0,humd=4" parses to the expected
mapping, and whenever the parsed `ret` field is not "OK" the call
fails with the protocol error instead of returning a mapping. -/
theorem daikin_C5_amended :
    parseBody "ret=OK,pow=1,mode=1,airvol=0,humd=4" =
      [("ret", some "OK"), ("pow", some "1"), ("mode", some "1"),
       ("airvol", some "0"), ("humd", some "4")]
    ∧ (∀ (m : List (String × Option String)) (k : String) (v : Option String),
        getField (m ++ [(k, v)]) k = v)
    ∧ getField (parseBody "ret=OK,a=1,a=2") "a" = some "2"
    ∧ callDevice (.ok "ret=ERR") = .error .protocol
    ∧ (∀ b : String,
        (getField (parseBody b) "ret" = some "OK" ∧ callDevice (.ok b) = .ok (parseBody b))
        ∨ callDevice (.ok b) = .error .protocol)
    ∧ getField (parseBody "ret=OK,x=a=b") "x" = some "a" := by
  refine ⟨by decide, ?_, by decide, by decide, ?_, by decide⟩
  · intro m k v
    unfold getField
    rw [List.filter_append]
    simp
  · intro b
    by_cases h : getField (parseBody b) "ret" = some "OK"
    · exact Or.inl ⟨h, by simp [callDevice, h]⟩
    · exact Or.inr (by simp [callDevice, h])

/-- C6: `getSensorInfo` never fails past a successful `callDevice`: it
returns the numeric parses of `htemp` and `hhum`, and a missing field
(parseFloat of `undefined`) parses to the NaN sentinel rather than
raising an error. -/
theorem daikin_C6 (dev : Device) (resp : List (String × Option String))
    (hcall : callDevice dev.sensorBody = .ok resp) :
    getSensorInfo dev =
      .ok { temperature := jsParseFloatOpt (getField resp "htemp"),
            humidity := jsParseFloatOpt (getField resp "hhum") }
    ∧ jsParseFloatOpt none = JSNum.nan := by
  constructor
  · unfold getSensorInfo
    rw [hcall]
    rfl
  · rfl

/-- C6 witness: a device answering `ret=OK,htemp=abc` yields NaN for
both sensor values, with no error. -/
theorem daikin_C6_witness :
    getSensorInfo devNoNum =
      .ok { temperature := JSNum.nan, humidity := JSNum.nan } := by
  have h := (daikin_C6 devNoNum (parseBody "ret=OK,htemp=abc") (by decide)).1
  rw [h]
  decide

/-- C7: the timer period is 10000 ms; a tick refreshes exactly when the
current time is at least `updated_at + 5000`, and a fresh tick starts
no refresh (hence no network call); the initial state's `updated_at`
is 0, so it falls on the stale side whenever `now ≥ 5000`. -/
theorem daikin_C7 (dev : Device) (st : State) (now : Nat) :
    tickIntervalMs = 10000
    ∧ freshnessWindowMs = 5000
    ∧ (tickRefreshes now st = true ↔ st.updated_at + 5000 ≤ now)
    ∧ ((tickRefreshes now st = true ∧ tickRun dev st now = [updateState dev now])
       ∨ (tickRefreshes now st = false ∧ tickRun dev st now = []))
    ∧ initState.updated_at = 0 := by
  refine ⟨rfl, rfl, ?_, ?_, rfl⟩
  · simp [tickRefreshes, freshnessWindowMs, Nat.not_lt]
  · by_cases h : now < st.updated_at + freshnessWindowMs
    · exact Or.inr ⟨by simp [tickRefreshes, h], by simp [tickRun, h]⟩
    · exact Or.inl ⟨by simp [tickRefreshes, h], by simp [tickRun, h]⟩

/-- C10: before any successful refresh the cache holds the fixed
defaults (`updated_at` 0, power and humidifier off, temperature and
humidity the number 0); every projection read returns these defaults
(power and humidifier read as the inactive constants), and under the
5000 ms window a tick on the initial state refreshes exactly when
`now ≥ 5000`. -/
theorem daikin_C10 :
    initState =
      { updated_at := 0,
        controlInfo := { power := false, humidifier := false },
        sensorInfo := { temperature := JSNum.num 0, humidity := JSNum.num 0 } }
    ∧ getActive initState = HapActiveINACTIVE
    ∧ getCurrentAirPurifierState initState = HapPurifierINACTIVE
    ∧ getCurrentHumidifierState initState = HapHumidifierINACTIVE
    ∧ getCurrentTemperature initState = JSNum.num 0
    ∧ getCurrentHumidity initState = JSNum.num 0
    ∧ ∀ now : Nat, tickRefreshes now initState = decide (5000 ≤ now) := by
  refine ⟨rfl, rfl, rfl, rfl, rfl, rfl, ?_⟩
  intro now
  by_cases h : 5000 ≤ now
  · simp [tickRefreshes, initState, freshnessWindowMs, h, Nat.not_lt.mpr h]
  · simp [tickRefreshes, initState, freshnessWindowMs, h, Nat.lt_of_not_le h]

/-- A device confirming the power-on write and then reporting
`pow=1,humd=4` on the control endpoint. -/
def devPowOn : Device :=
  { sensorBody := .ok "ret=OK", controlBody := .ok "ret=OK,pow=1,humd=4",
    setBody := fun _ => .ok "ret=OK" }

/-- A device accepting writes but failing the control fetch at the
transport level. -/
def devCtrlDown : Device :=
  { sensorBody := .ok "ret=OK", controlBody := .error .transport,
    setBody := fun _ => .ok "ret=OK" }

/-- A device answering the control endpoint with `ret=ERR`. -/
def devRetErr : Device :=
  { sensorBody := .ok "ret=OK", controlBody := .ok "ret=ERR",
    setBody := fun _ => .ok "ret=OK" }

/-- C2: one `updateState` run either fails — leaving the cache exactly
as it was and handing the error back — or succeeds, replacing the
whole state in one step with the two fetched components and the new
stamp; and every state observable during or after the run is either
the untouched old state or the completed new one, never a mixture. -/
theorem daikin_C2 (dev : Device) (st : State) (now : Nat) :
    ((∃ e, updateState dev now = .error e ∧ updateStateRun dev st now = (st, some e))
     ∨ (∃ c s, getControlInfo dev = .ok c ∧ getSensorInfo dev = .ok s
        ∧ updateStateRun dev st now =
            ({ updated_at := now, controlInfo := c, sensorInfo := s }, none)))
    ∧ (updateStateObservable dev st now).all
        (fun x => decide (x = st) || decide (x = (updateStateRun dev st now).1)) = true := by
  constructor
  · rcases hc : getControlInfo dev with e | c
    · have hu : updateState dev now = .error e := by
        simp only [updateState, hc]
        rfl
      exact Or.inl ⟨e, hu, by simp [updateStateRun, hu]⟩
    · rcases hs : getSensorInfo dev with e | s
      · have hu : updateState dev now = .error e := by
          simp only [updateState, hc, hs]
          rfl
        exact Or.inl ⟨e, hu, by simp [updateStateRun, hu]⟩
      · have hu : updateState dev now =
            .ok { updated_at := now, controlInfo := c, sensorInfo := s } := by
          simp only [updateState, hc, hs]
          rfl
        exact Or.inr ⟨c, s, rfl, rfl, by simp [updateStateRun, hu]⟩
  · simp [updateStateObservable]

/-- C9: when two consecutive refreshes against the same device
responses both succeed, the second cache state keeps every projection
(power, humidifier, temperature, humidity) and both decoded components
of the first; only `updated_at` moves, to the later stamp. -/
theorem daikin_C9 (dev : Device) (st st₁ st₂ : State) (now₁ now₂ : Nat)
    (h12 : now₁ ≤ now₂)
    (h₁ : updateStateRun dev st now₁ = (st₁, none))
    (h₂ : updateStateRun dev st₁ now₂ = (st₂, none)) :
    st₂.controlInfo = st₁.controlInfo
    ∧ st₂.sensorInfo = st₁.sensorInfo
    ∧ getActive st₂ = getActive st₁
    ∧ getCurrentAirPurifierState st₂ = getCurrentAirPurifierState st₁
    ∧ getCurrentHumidifierState st₂ = getCurrentHumidifierState st₁
    ∧ getCurrentTemperature st₂ = getCurrentTemperature st₁
    ∧ getCurrentHumidity st₂ = getCurrentHumidity st₁
    ∧ st₂.updated_at = now₂
    ∧ st₁.updated_at ≤ st₂.updated_at := by
  rcases hc : getControlInfo dev with e | c
  · have hu : updateState dev now₁ = .error e := by
      simp only [updateState, hc]
      rfl
    simp [updateStateRun, hu] at h₁
  · rcases hs : getSensorInfo dev with e | s
    · have hu : updateState dev now₁ = .error e := by
        simp only [updateState, hc, hs]
        rfl
      simp [updateStateRun, hu] at h₁
    · have hu₁ : updateState dev now₁ =
          .ok { updated_at := now₁, controlInfo := c, sensorInfo := s } := by
        simp only [updateState, hc, hs]
        rfl
      have hu₂ : updateState dev now₂ =
          .ok { updated_at := now₂, controlInfo := c, sensorInfo := s } := by
        simp only [updateState, hc, hs]
        rfl
      simp [updateStateRun, hu₁] at h₁
      simp [updateStateRun, hu₂] at h₂
      rw [← h₁, ← h₂]
      refine ⟨rfl, rfl, rfl, rfl, rfl, rfl, rfl, rfl, ?_⟩
      simpa using h12

/-- C9 witness: two refreshes against `devPowOn` at times 6000 and
12000 both succeed and keep the decoded components while moving the
stamp. -/
theorem daikin_C9_witness :
    (updateStateRun devPowOn
        (updateStateRun devPowOn initState 6000).1 12000).1.controlInfo
      = (updateStateRun devPowOn initState 6000).1.controlInfo
    ∧ (updateStateRun devPowOn
        (updateStateRun devPowOn initState 6000).1 12000).1.updated_at = 12000 := by
  have h := daikin_C9 devPowOn initState
    (updateStateRun devPowOn initState 6000).1
    (updateStateRun devPowOn
      (updateStateRun devPowOn initState 6000).1 12000).1
    6000 12000 (by decide) (by decide) (by decide)
  exact ⟨h.1, h.2.2.2.2.2.2.2.1⟩

/-- C1 counterexample: with a device that confirms the write and then
reports power on, the `onSet` handler resolves while the cache still
holds the pre-call state (power still off) and the refresh only floats
behind; and with a device whose control fetch fails, the handler still
resolves successfully, so the fetch failure never reaches the caller. -/
theorem daikin_C1_cex :
    (onSetActive devPowOn initState 7000 1).resolveResult = .ok ()
    ∧ (onSetActive devPowOn initState 7000 1).stateAtResolve = initState
    ∧ decide ((onSetActive devPowOn initState 7000 1).stateAtResolve.controlInfo.power
        = true) = false
    ∧ (onSetActive devPowOn initState 7000 1).floating =
        [.ok { updated_at := 7000,
               controlInfo := { power := true, humidifier := true },
               sensorInfo := { temperature := JSNum.nan, humidity := JSNum.nan } }]
    ∧ (onSetActive devCtrlDown initState 7000 1).resolveResult = .ok ()
    ∧ (onSetActive devCtrlDown initState 7000 1).floating = [.error .transport] := by
  decide

/-- C1 amended: the handler encodes the write as `pow` "1"/"0" and a
failure of that command surfaces to the caller with no refresh
started; on command success it starts a full refresh without awaiting
it, so the handler resolves with the cache still at its pre-call
contents and only the refresh's floating promise carries the
post-write state or the fetch failure. -/
theorem daikin_C1_amended (dev : Device) (st : State) (now : Nat) (value : Nat) :
    (setControlInfo dev true = (callDevice (dev.setBody "1")).map (fun _ => ()))
    ∧ (setControlInfo dev false = (callDevice (dev.setBody "0")).map (fun _ => ()))
    ∧ ((∃ e, setControlInfo dev (decide (value = HapActiveACTIVE)) = .error e
          ∧ onSetActive dev st now value =
              { resolveResult := .error e, stateAtResolve := st, floating := [] })
       ∨ (setControlInfo dev (decide (value = HapActiveACTIVE)) = .ok ()
          ∧ onSetActive dev st now value =
              { resolveResult := .ok (), stateAtResolve := st,
                floating := [updateState dev now] })) := by
  refine ⟨?_, ?_, ?_⟩
  · rcases hb : callDevice (dev.setBody "1") with e | r <;>
      simp [setControlInfo, hb, Except.map]
  · rcases hb : callDevice (dev.setBody "0") with e | r <;>
      simp [setControlInfo, hb, Except.map]
  · rcases hset : setControlInfo dev (decide (value = HapActiveACTIVE)) with e | ⟨⟩
    · exact Or.inl ⟨e, rfl, by simp [onSetActive, hset]⟩
    · exact Or.inr ⟨rfl, by simp [onSetActive, hset]⟩

/-- C8 counterexample: a stale tick against a device answering
`ret=ERR` produces exactly one floating refresh whose protocol error
is an unhandled rejection — nothing in the coordinator catches or logs
it; and the same failure after a write never reaches the write's
caller, whose promise resolves successfully. -/
theorem daikin_C8_cex :
    unhandledErrors (tickRun devRetErr initState 10000) = [DevErr.protocol]
    ∧ decide (unhandledErrors (tickRun devRetErr initState 10000) = []) = false
    ∧ (onSetActive devRetErr initState 10000 1).resolveResult = .ok ()
    ∧ unhandledErrors (onSetActive devRetErr initState 10000 1).floating
        = [DevErr.protocol] := by
  decide

/-- C8 amended: the coordinator attaches no handler to any refresh it
starts: a fresh tick starts nothing, a stale tick starts exactly the
one floating refresh (no retry before the next tick), the write
handler's settle value is exactly the control command's outcome — a
floating refresh failure never surfaces to any caller and remains an
unhandled rejection. -/
theorem daikin_C8_amended (dev : Device) (st : State) (now : Nat) (value : Nat) :
    ((now < st.updated_at + freshnessWindowMs ∧ tickRun dev st now = [])
     ∨ (st.updated_at + freshnessWindowMs ≤ now
        ∧ tickRun dev st now = [updateState dev now]))
    ∧ (tickRun dev st now).length ≤ 1
    ∧ (onSetActive dev st now value).resolveResult
        = setControlInfo dev (decide (value = HapActiveACTIVE))
    ∧ ((onSetActive dev st now value).floating = []
       ∨ (onSetActive dev st now value).floating = [updateState dev now]) := by
  refine ⟨?_, ?_, ?_, ?_⟩
  · by_cases h : now < st.updated_at + freshnessWindowMs
    · exact Or.inl ⟨h, by simp [tickRun, h]⟩
    · exact Or.inr ⟨Nat.le_of_not_lt h, by simp [tickRun, h]⟩
  · by_cases h : now < st.updated_at + freshnessWindowMs <;> simp [tickRun, h]
  · rcases hset : setControlInfo dev (decide (value = HapActiveACTIVE)) with e | ⟨⟩ <;>
      simp [onSetActive, hset]
  · rcases hset : setControlInfo dev (decide (value = HapActiveACTIVE)) with e | ⟨⟩
    · exact Or.inl (by simp [onSetActive, hset])
    · exact Or.inr (by simp [onSetActive, hset])
